import Mathlib

/-!
Shallow embedding of `custom_components/bar228_ble/bar228_ble/parser.py`
(BAR228 BLE weather-station client).

Conventions of the embedding:
- Python `bytearray` payloads are `List Byte` with `Byte := Fin 256`.
- Python `dict[str, ...]` (insertion-ordered, update-in-place) is an
  association list with `pyDictSet` / `pyDictGet`.
- Python float true division by 10 is modelled as exact division in `ℚ`
  (the decoded values are raw integers divided by 10).
- Exceptions are modelled explicitly: a stateful operation returns the
  final mutated state together with `Option PyErr`; `some e` means the
  Python call raised `e` to its caller, and the state returned is the
  state at the moment of the raise (in-place mutations already performed
  stay visible, as in Python).
- `await` points that can fail (establish_connection, connect,
  start_notify) take their outcome from an `Env` oracle; every awaited
  effect is recorded in an `BleAction` trace so that theorems can count
  subscribe / clear_cache / disconnect calls.
- `datetime.now().astimezone()` is an opaque timestamp passed in as `now`.
-/

/-- A byte of a BLE notification payload. -/
abbrev Byte := Fin 256

/-- Values stored in the `sensors` dict: decoded numbers (temperature,
humidity, pressure) or the `last` timestamp. -/
inductive SensorValue where
  | num : ℚ → SensorValue
  | time : ℕ → SensorValue
deriving DecidableEq

/-- Python exceptions raised by the modelled code paths. -/
inductive PyErr where
  | structError
  | attributeError
  | nameError
  | serviceMissing
  | characteristicMissing
  | transportError
deriving DecidableEq

/-- Python dict update `m[k] = v`: replace in place, else append. -/
def pyDictSet (m : List (String × Option SensorValue)) (k : String)
    (v : Option SensorValue) : List (String × Option SensorValue) :=
  match m with
  | [] => [(k, v)]
  | (k', v') :: rest =>
      if k' = k then (k, v) :: rest else (k', v') :: pyDictSet rest k v

/-- Python dict lookup: `some v` when the key is present (with `v` the
stored value, itself possibly Python `None`), `none` when absent. -/
def pyDictGet (m : List (String × Option SensorValue)) (k : String) :
    Option (Option SensorValue) :=
  match m with
  | [] => none
  | (k', v') :: rest => if k' = k then some v' else pyDictGet rest k

/-- `dataclass BAR228Device` of parser.py. -/
structure BAR228Device where
  hw_version : String := ""
  sw_version : String := ""
  name : String := ""
  identifier : String := ""
  address : String := ""
  sensors : List (String × Option SensorValue) := []
deriving DecidableEq

/-- Python slice `l[a:b]` (non-negative indices, clipped to the length). -/
def pySlice (l : List Byte) (a b : Nat) : List Byte :=
  (l.drop a).take (b - a)

/-- `struct.unpack("<H", bs)[0]`: exactly two bytes, little endian,
otherwise `struct.error`. -/
def unpackLEu16 (bs : List Byte) : Except PyErr Nat :=
  match bs with
  | [b0, b1] => .ok (b0.val + 256 * b1.val)
  | _ => .error .structError

/-- `struct.unpack("@B", bs)[0]`: exactly one byte, otherwise
`struct.error`. -/
def unpackU8 (bs : List Byte) : Except PyErr Nat :=
  match bs with
  | [b0] => .ok b0.val
  | _ => .error .structError

/-- The mutable attributes of a `BAR228BluetoothDeviceData` instance,
plus the state of the `asyncio.Event` it owns: `none` while
`self._event is None`, `some b` once the event object exists with
set-flag `b`. The BleakClient handle is `some c` once assigned, with
`c.connected` mirroring `is_connected`. -/
structure ClientState where
  connected : Bool
deriving DecidableEq

structure DeviceState where
  command_data : Option (List Byte) := none
  bardevice : Option BAR228Device := none
  bleclient : Option ClientState := none
  event : Option Bool := none
deriving DecidableEq

/-- The telemetry decode block of `notification_handler` (the body of
`if sender.handle >= 0x0013:`): the three in-place `sensors` writes with
their `struct.unpack` calls, then the `last` timestamp. Returns the
device record as mutated so far and the exception raised, if any —
writes performed before a failing unpack stay visible, as in Python. -/
def telemetryDecode (data : List Byte) (now : Nat) (d : BAR228Device) :
    BAR228Device × Option PyErr :=
  match unpackLEu16 (pySlice data 3 5) with
  | .error e => (d, some e)
  | .ok rawT =>
    let d := { d with
      sensors := pyDictSet d.sensors "temperature" (some (.num ((rawT : ℚ) / 10))) }
    match unpackU8 (pySlice data 6 7) with
    | .error e => (d, some e)
    | .ok rawH =>
      let d := { d with
        sensors := pyDictSet d.sensors "humidity" (some (.num (rawH : ℚ))) }
      match unpackLEu16 (pySlice data 8 10) with
      | .error e => (d, some e)
      | .ok rawP =>
        let d := { d with
          sensors := pyDictSet d.sensors "pressure" (some (.num ((rawP : ℚ) / 10))) }
        let d := { d with
          sensors := pyDictSet d.sensors "last" (some (.time now)) }
        (d, none)

/-- `BAR228BluetoothDeviceData.notification_handler(sender, data)`.

Returns the mutated state and `some e` when the handler raised `e` to
its caller (the bleak notification dispatcher). The decode block runs
only for `sender.handle >= 0x0013`; attribute access on a `None`
`self._bardevice` would raise `AttributeError`. The final
`self._event.set()` runs only when no exception was raised before it. -/
def notification_handler (handle : Nat) (data : List Byte) (now : Nat)
    (s : DeviceState) : DeviceState × Option PyErr :=
  -- self._command_data = data
  let s := { s with command_data := some data }
  let decoded : DeviceState × Option PyErr :=
    if 0x0013 ≤ handle then
      match s.bardevice with
      | none => (s, some .attributeError)  -- self._bardevice.sensors on None
      | some d =>
        let (d', err) := telemetryDecode data now d
        ({ s with bardevice := some d' }, err)
    else
      (s, none)
  match decoded with
  | (s, some e) => (s, some e)
  | (s, none) =>
      match s.event with
      | none => (s, none)           -- if self._event is None: return
      | some _ => ({ s with event := some true }, none)  -- self._event.set()

/-! ### Connection, subscription and the `update_device` entry point -/

/-- The five notification characteristics subscribed in `_get_bar228`,
in source order. -/
def BAR228_CHARACTERISTIC_UUID_WRITE1 : String := "905e8e01-81e9-4796-9b75-b95cf5e30c0b"
def BAR228_CHARACTERISTIC_UUID_WRITE2 : String := "905e8e02-81e9-4796-9b75-b95cf5e30c0b"
def BAR228_CHARACTERISTIC_UUID_WRITE3 : String := "905e8e03-81e9-4796-9b75-b95cf5e30c0b"
def BAR228_CHARACTERISTIC_UUID_WRITE4 : String := "905e8e30-81e9-4796-9b75-b95cf5e30c0b"
def BAR228_CHARACTERISTIC_UUID_WRITE5 : String := "905e8e34-81e9-4796-9b75-b95cf5e30c0b"

def subscribeUuids : List String :=
  [BAR228_CHARACTERISTIC_UUID_WRITE1, BAR228_CHARACTERISTIC_UUID_WRITE2,
   BAR228_CHARACTERISTIC_UUID_WRITE3, BAR228_CHARACTERISTIC_UUID_WRITE4,
   BAR228_CHARACTERISTIC_UUID_WRITE5]

/-- Awaited effects on the BleakClient, recorded as an ordered trace.
`eventWait` would mark an `await self._event.wait()` call; the source
contains no such call, so the embedding never emits it. -/
inductive BleAction where
  | establishConnection (address : String)
  | connect
  | startNotify (uuid : String)
  | clearCache
  | disconnect
  | eventCreate
  | eventWait
deriving DecidableEq

def BleAction.isStartNotify : BleAction → Bool
  | .startNotify _ => true
  | _ => false

/-- Outcomes of the fallible awaited transport operations, chosen by the
environment: `none` means the call succeeds, `some e` that it raises
`e`. -/
structure Env where
  establishResult : Option PyErr := none
  connectResult : Option PyErr := none
  notifyResult : String → Option PyErr := fun _ => none

/-- `bleak.backends.device.BLEDevice` as used here: name and address. -/
structure BLEDevice where
  name : String
  address : String

/-- Python `s.startswith(p)`, on the character sequences of the two
strings. -/
def pyStartswith (s p : String) : Bool := p.data.isPrefixOf s.data

/-- `client.start_notify(uuid, handler)`: records the attempt and
reports the environment-chosen outcome. -/
def start_notify (env : Env) (uuid : String) : List BleAction × Except PyErr Unit :=
  ([BleAction.startNotify uuid],
   match env.notifyResult uuid with
   | some e => .error e
   | none => .ok ())

/-- Body of `_get_bar228` (before the `disconnect_on_missing_services`
decorator is applied): creates `self._event`, then attempts the five
subscriptions in order, each inside its own `try: ... except Exception:`
that only logs the failure — no exception kind escapes a subscription
attempt, and the device is returned unchanged. -/
def getBar228Body (env : Env) (device : BAR228Device) (s : DeviceState) :
    DeviceState × List BleAction × Except PyErr BAR228Device :=
  -- self._event = asyncio.Event()
  let s := { s with event := some false }
  let step := fun (acts : List BleAction) (uuid : String) =>
    let (a, r) := start_notify env uuid
    match r with
    | .ok _ => acts ++ a
    | .error _ => acts ++ a   -- except Exception: self.logger.debug(...)
  let acts := subscribeUuids.foldl step [BleAction.eventCreate]
  (s, acts, .ok device)

/-- The `disconnect_on_missing_services` decorator. When the wrapped
call raises `BleakServiceMissing` / `BleakCharacteristicMissing`, the
handler body runs `logger.warning(...)` first — but `logger` is an
undefined module-level name (the module defines `_LOGGER`), so the
handler itself raises `NameError` and neither `clear_cache` nor
`disconnect` is ever reached. Any other outcome passes through. -/
def disconnect_on_missing_services
    (run : DeviceState → DeviceState × List BleAction × Except PyErr BAR228Device)
    (s : DeviceState) : DeviceState × List BleAction × Except PyErr BAR228Device :=
  let (s', acts, res) := run s
  match res with
  | .error .serviceMissing => (s', acts, .error .nameError)
  | .error .characteristicMissing => (s', acts, .error .nameError)
  | _ => (s', acts, res)

/-- `_get_bar228 = disconnect_on_missing_services(getBar228Body)`. -/
def get_bar228 (env : Env) (device : BAR228Device) (s : DeviceState) :
    DeviceState × List BleAction × Except PyErr BAR228Device :=
  disconnect_on_missing_services (getBar228Body env device) s

/-- The fresh `BAR228Device` built by the first `update_device` call:
name and address come from the advertisement, the four sensor keys are
initialised to Python `None`. -/
def freshDevice (ble : BLEDevice) : BAR228Device :=
  { name := ble.name, address := ble.address,
    sensors := [("temperature", none), ("humidity", none),
                ("pressure", none), ("last", none)] }

/-- `BAR228BluetoothDeviceData.update_device(ble_device)`.

Returns the mutated state, the trace of awaited client operations, and
either the `BAR228Device` returned to the caller or the exception
propagated. -/
def update_device (env : Env) (ble : BLEDevice) (s : DeviceState) :
    DeviceState × List BleAction × Except PyErr BAR228Device :=
  -- first block: create the device record only when none exists yet
  let (s, device) :=
    match s.bardevice with
    | some d => (s, d)
    | none =>
      let d := freshDevice ble
      ({ s with bardevice := some d, command_data := none }, d)
  match s.bleclient with
  | some c =>
      if c.connected then
        (s, [], .ok device)
      else
        -- await self._bleclient.connect()
        match env.connectResult with
        | some e => (s, [BleAction.connect], .error e)
        | none =>
          let s := { s with bleclient := some { connected := true } }
          let (s, acts, res) := get_bar228 env device s
          match res with
          | .error e => (s, BleAction.connect :: acts, .error e)
          | .ok d =>
              ({ s with bardevice := some d }, BleAction.connect :: acts, .ok d)
  | none =>
      -- await establish_connection(BleakClient, ble_device, ble_device.address)
      match env.establishResult with
      | some e => (s, [BleAction.establishConnection ble.address], .error e)
      | none =>
        let s := { s with bleclient := some { connected := true } }
        if pyStartswith ble.name "IDTBA228" then
          let (s, acts, res) := get_bar228 env device s
          match res with
          | .error e => (s, BleAction.establishConnection ble.address :: acts, .error e)
          | .ok d =>
              ({ s with bardevice := some d },
               BleAction.establishConnection ble.address :: acts, .ok d)
        else
          (s, [BleAction.establishConnection ble.address], .ok device)

/-! ### Association-list (Python dict) lemmas -/

lemma pyDictGet_pyDictSet_self (m : List (String × Option SensorValue))
    (k : String) (v : Option SensorValue) :
    pyDictGet (pyDictSet m k v) k = some v := by
  induction m with
  | nil => simp [pyDictSet, pyDictGet]
  | cons hd tl ih =>
    obtain ⟨k', v'⟩ := hd
    by_cases h : k' = k <;> simp [pyDictSet, pyDictGet, h, ih]

lemma pyDictGet_pyDictSet_ne (m : List (String × Option SensorValue))
    (k k' : String) (v : Option SensorValue) (h : k' ≠ k) :
    pyDictGet (pyDictSet m k v) k' = pyDictGet m k' := by
  induction m with
  | nil => simp [pyDictSet, pyDictGet, Ne.symm h]
  | cons hd tl ih =>
    obtain ⟨k'', v''⟩ := hd
    by_cases hk : k'' = k
    · subst hk
      simp [pyDictSet, pyDictGet, Ne.symm h]
    · by_cases hk' : k'' = k' <;>
        simp [pyDictSet, pyDictGet, hk, hk', h, Ne.symm h, ih]

/-! ### Payload slice evaluation -/

lemma pySlice_ten_35 (b0 b1 b2 b3 b4 b5 b6 b7 b8 b9 : Byte) (rest : List Byte) :
    pySlice (b0::b1::b2::b3::b4::b5::b6::b7::b8::b9::rest) 3 5 = [b3, b4] := rfl

lemma pySlice_ten_67 (b0 b1 b2 b3 b4 b5 b6 b7 b8 b9 : Byte) (rest : List Byte) :
    pySlice (b0::b1::b2::b3::b4::b5::b6::b7::b8::b9::rest) 6 7 = [b6] := rfl

lemma pySlice_ten_810 (b0 b1 b2 b3 b4 b5 b6 b7 b8 b9 : Byte) (rest : List Byte) :
    pySlice (b0::b1::b2::b3::b4::b5::b6::b7::b8::b9::rest) 8 10 = [b8, b9] := rfl

/-- The sensors dict produced by one successful telemetry decode. -/
def decodedSensors (d : BAR228Device) (rawT rawH rawP now : ℕ) :
    List (String × Option SensorValue) :=
  pyDictSet (pyDictSet (pyDictSet (pyDictSet d.sensors
    "temperature" (some (.num ((rawT : ℚ) / 10))))
    "humidity" (some (.num (rawH : ℚ))))
    "pressure" (some (.num ((rawP : ℚ) / 10))))
    "last" (some (.time now))

/-- The device record after one successful telemetry decode. -/
def decodedDevice (d : BAR228Device) (rawT rawH rawP now : ℕ) : BAR228Device :=
  { d with sensors := decodedSensors d rawT rawH rawP now }

/-- Bridge: on a telemetry handle, `notification_handler` is the
command-data write, then `telemetryDecode` on the stored device, then
the event logic (skipped when the decode raised). -/
lemma notification_handler_ge (handle : Nat) (hh : 0x0013 ≤ handle)
    (data : List Byte) (now : Nat) (s : DeviceState) (d : BAR228Device) :
    notification_handler handle data now { s with bardevice := some d } =
      match telemetryDecode data now d with
      | (d', some e) =>
          ({ s with command_data := some data, bardevice := some d' }, some e)
      | (d', none) =>
          match s.event with
          | none => ({ s with command_data := some data, bardevice := some d' }, none)
          | some _ =>
              ({ s with
                  command_data := some data
                  bardevice := some d'
                  event := some true }, none) := by
  rcases htd : telemetryDecode data now d with ⟨d', err⟩
  cases err <;> cases hev : s.event <;> simp [notification_handler, hh, htd, hev]

/-- On a 10-byte-or-longer payload all three unpacks succeed and the
four sensor fields are written in order. -/
lemma telemetryDecode_ten (b0 b1 b2 b3 b4 b5 b6 b7 b8 b9 : Byte) (rest : List Byte)
    (now : Nat) (d : BAR228Device) :
    telemetryDecode (b0::b1::b2::b3::b4::b5::b6::b7::b8::b9::rest) now d =
      (decodedDevice d (b3.val + 256 * b4.val) b6.val (b8.val + 256 * b9.val) now,
       none) := rfl

/-- Master evaluation of `notification_handler` on a telemetry-handle
notification with a 10-byte-or-longer payload: all three unpacks
succeed, the four sensor fields are written in order, no exception is
raised, and the event (when present) ends set. -/
lemma notification_handler_decode_ok
    (handle : Nat) (hh : 0x0013 ≤ handle)
    (b0 b1 b2 b3 b4 b5 b6 b7 b8 b9 : Byte) (rest : List Byte)
    (now : Nat) (s : DeviceState) (d : BAR228Device) :
    notification_handler handle (b0::b1::b2::b3::b4::b5::b6::b7::b8::b9::rest) now
        { s with bardevice := some d } =
      (let s' : DeviceState :=
        { s with
          command_data := some (b0::b1::b2::b3::b4::b5::b6::b7::b8::b9::rest),
          bardevice := some { d with
            sensors := decodedSensors d (b3.val + 256 * b4.val) b6.val
                        (b8.val + 256 * b9.val) now },
          event := s.event.map (fun _ => true) }
       (s', none)) := by
  rw [notification_handler_ge handle hh, telemetryDecode_ten]
  cases hev : s.event <;> simp [hev, decodedDevice]

/-! ### C1: telemetry decode for 10+-byte payloads -/

/-- C1: for every telemetry notification whose characteristic handle is
at least 0x0013 and whose payload has at least 10 bytes (written as ten
leading bytes plus an arbitrary tail), the handler raises nothing and
the decoded temperature is the little-endian unsigned 16-bit integer of
payload bytes 3..5 divided by 10, the decoded humidity is the unsigned
byte at offset 6, and the decoded pressure is the little-endian
unsigned 16-bit integer of payload bytes 8..10 divided by 10. -/
theorem C1_telemetry_decode_fields
    (handle : Nat) (hh : 0x0013 ≤ handle)
    (b0 b1 b2 b3 b4 b5 b6 b7 b8 b9 : Byte) (rest : List Byte)
    (now : Nat) (s : DeviceState) (d : BAR228Device) :
    ∃ d' : BAR228Device,
      (notification_handler handle (b0::b1::b2::b3::b4::b5::b6::b7::b8::b9::rest) now
          { s with bardevice := some d }).1.bardevice = some d' ∧
      pyDictGet d'.sensors "temperature"
        = some (some (.num (((b3.val + 256 * b4.val : ℕ) : ℚ) / 10))) ∧
      pyDictGet d'.sensors "humidity" = some (some (.num ((b6.val : ℕ) : ℚ))) ∧
      pyDictGet d'.sensors "pressure"
        = some (some (.num (((b8.val + 256 * b9.val : ℕ) : ℚ) / 10))) ∧
      (notification_handler handle (b0::b1::b2::b3::b4::b5::b6::b7::b8::b9::rest) now
          { s with bardevice := some d }).2 = none := by
  refine ⟨decodedDevice d (b3.val + 256 * b4.val) b6.val (b8.val + 256 * b9.val) now,
    ?_, ?_, ?_, ?_, ?_⟩
  · rw [notification_handler_decode_ok handle hh]
    rfl
  · simp [decodedDevice, decodedSensors, pyDictGet_pyDictSet_ne, pyDictGet_pyDictSet_self]
  · simp [decodedDevice, decodedSensors, pyDictGet_pyDictSet_ne, pyDictGet_pyDictSet_self]
  · simp [decodedDevice, decodedSensors, pyDictGet_pyDictSet_ne, pyDictGet_pyDictSet_self]
  · rw [notification_handler_decode_ok handle hh]

/-- Witness for C1 at handle 0x0013 with payload
`[0,0,0,215,0,0,45,0,208,0]` (raw temperature 215, humidity 45, raw
pressure 208). -/
theorem C1_telemetry_decode_fields_witness :
    ∃ d' : BAR228Device,
      (notification_handler 0x0013 [0, 0, 0, 215, 0, 0, 45, 0, 208, 0] 5
          { ({} : DeviceState) with
            bardevice := some (freshDevice ⟨"IDTBA228 X", "AA:BB"⟩) }).1.bardevice
        = some d' ∧
      pyDictGet d'.sensors "temperature"
        = some (some (.num ((((215 : Byte).val + 256 * (0 : Byte).val : ℕ) : ℚ) / 10))) ∧
      pyDictGet d'.sensors "humidity"
        = some (some (.num (((45 : Byte).val : ℕ) : ℚ))) ∧
      pyDictGet d'.sensors "pressure"
        = some (some (.num ((((208 : Byte).val + 256 * (0 : Byte).val : ℕ) : ℚ) / 10))) ∧
      (notification_handler 0x0013 [0, 0, 0, 215, 0, 0, 45, 0, 208, 0] 5
          { ({} : DeviceState) with
            bardevice := some (freshDevice ⟨"IDTBA228 X", "AA:BB"⟩) }).2 = none :=
  C1_telemetry_decode_fields 0x0013 (by decide) 0 0 0 215 0 0 45 0 208 0 [] 5 {}
    (freshDevice ⟨"IDTBA228 X", "AA:BB"⟩)

/-! ### C6: below-threshold notifications never mutate the reading -/

/-- C6: for every notification whose characteristic handle is strictly
below 0x0013, the handler leaves `self._bardevice` — and hence every
field of the sensor reading (temperature, humidity, pressure, last) —
unchanged, regardless of payload contents. -/
theorem C6_below_threshold_preserves_reading
    (handle : Nat) (hh : handle < 0x0013) (data : List Byte) (now : Nat)
    (s : DeviceState) :
    (notification_handler handle data now s).1.bardevice = s.bardevice := by
  cases hev : s.event <;>
    simp [notification_handler, Nat.not_le.mpr hh, hev]

/-- Witness for C6 at handle 0x0012 with a garbage payload against a
freshly initialised device record. -/
theorem C6_below_threshold_preserves_reading_witness :
    (notification_handler 0x0012 [255, 1] 7
        { ({} : DeviceState) with
          bardevice := some (freshDevice ⟨"IDTBA228 X", "AA:BB"⟩) }).1.bardevice
      = ({ ({} : DeviceState) with
           bardevice := some (freshDevice ⟨"IDTBA228 X", "AA:BB"⟩) } : DeviceState).bardevice :=
  C6_below_threshold_preserves_reading 0x0012 (by decide) [255, 1] 7 _

/-! ### C2: short telemetry payloads -/

/-- C2 counterexample: at handle 0x0013 a 7-byte payload makes the
handler raise `struct.error` to its caller (the third unpack gets fewer
than two bytes), and the temperature field of the previous reading has
already been overwritten in place — the claim's "no raise, nothing
changed" fails on both counts. -/
theorem C2_short_payload_counterexample :
    (notification_handler 0x0013 [0, 0, 0, 215, 0, 0, 45] 5
        { ({} : DeviceState) with
          bardevice := some (freshDevice ⟨"IDTBA228 X", "AA:BB"⟩) }).2
      = some PyErr.structError ∧
    (notification_handler 0x0013 [0, 0, 0, 215, 0, 0, 45] 5
        { ({} : DeviceState) with
          bardevice := some (freshDevice ⟨"IDTBA228 X", "AA:BB"⟩) }).1.bardevice
      ≠ some (freshDevice ⟨"IDTBA228 X", "AA:BB"⟩) := by
  constructor
  · rfl
  · decide

/-- C2 amended: for every notification with characteristic handle at
least 0x0013 whose payload is shorter than 10 bytes, the handler raises
`struct.error` to the caller; fields decoded before the failing unpack
stay overwritten, while the pressure and last fields of the previous
reading are unchanged (and the event logic never runs, the state
differing from the previous one only in `command_data` and the
already-decoded sensor fields). -/
theorem C2_short_payload_raises
    (handle : ℕ) (hh : 0x0013 ≤ handle) (data : List Byte) (hlen : data.length < 10)
    (now : ℕ) (s : DeviceState) (d : BAR228Device) :
    ∃ d' : BAR228Device,
      notification_handler handle data now { s with bardevice := some d }
        = ({ s with command_data := some data, bardevice := some d' },
           some PyErr.structError) ∧
      pyDictGet d'.sensors "pressure" = pyDictGet d.sensors "pressure" ∧
      pyDictGet d'.sensors "last" = pyDictGet d.sensors "last" := by
  simp only [notification_handler_ge handle hh]
  rcases data with _|⟨b0, _|⟨b1, _|⟨b2, _|⟨b3, _|⟨b4, _|⟨b5, _|⟨b6, _|⟨b7, _|⟨b8, _|⟨b9, rest⟩⟩⟩⟩⟩⟩⟩⟩⟩⟩
  · exact ⟨d, rfl, rfl, rfl⟩
  · exact ⟨d, rfl, rfl, rfl⟩
  · exact ⟨d, rfl, rfl, rfl⟩
  · exact ⟨d, rfl, rfl, rfl⟩
  · exact ⟨d, rfl, rfl, rfl⟩
  · refine ⟨_, rfl, ?_, ?_⟩ <;>
      exact pyDictGet_pyDictSet_ne _ _ _ _ (by decide)
  · refine ⟨_, rfl, ?_, ?_⟩ <;>
      exact pyDictGet_pyDictSet_ne _ _ _ _ (by decide)
  · refine ⟨_, rfl, ?_, ?_⟩ <;>
      exact (pyDictGet_pyDictSet_ne _ _ _ _ (by decide)).trans
        (pyDictGet_pyDictSet_ne _ _ _ _ (by decide))
  · refine ⟨_, rfl, ?_, ?_⟩ <;>
      exact (pyDictGet_pyDictSet_ne _ _ _ _ (by decide)).trans
        (pyDictGet_pyDictSet_ne _ _ _ _ (by decide))
  · refine ⟨_, rfl, ?_, ?_⟩ <;>
      exact (pyDictGet_pyDictSet_ne _ _ _ _ (by decide)).trans
        (pyDictGet_pyDictSet_ne _ _ _ _ (by decide))
  · simp only [List.length_cons] at hlen
    omega

/-- Witness for the amended C2 at handle 0x0013 with the 7-byte payload
`[0,0,0,215,0,0,45]`. -/
theorem C2_short_payload_raises_witness :
    ∃ d' : BAR228Device,
      notification_handler 0x0013 [0, 0, 0, 215, 0, 0, 45] 5
          { ({} : DeviceState) with
            bardevice := some (freshDevice ⟨"IDTBA228 X", "AA:BB"⟩) }
        = ({ ({} : DeviceState) with
             command_data := some [0, 0, 0, 215, 0, 0, 45],
             bardevice := some d' },
           some PyErr.structError) ∧
      pyDictGet d'.sensors "pressure"
        = pyDictGet (freshDevice ⟨"IDTBA228 X", "AA:BB"⟩).sensors "pressure" ∧
      pyDictGet d'.sensors "last"
        = pyDictGet (freshDevice ⟨"IDTBA228 X", "AA:BB"⟩).sensors "last" :=
  C2_short_payload_raises 0x0013 (by decide) [0, 0, 0, 215, 0, 0, 45] (by decide) 5 {}
    (freshDevice ⟨"IDTBA228 X", "AA:BB"⟩)

/-! ### C5: update on a Ready, still-connected session is a no-op -/

/-- C5: when the session record already exists (`_bardevice` is set) and
the client handle reports connected, `update_device` performs no awaited
client operation at all — in particular zero `start_notify` calls — and
returns the stored reading with the state unchanged. -/
theorem C5_update_idempotent_when_connected
    (env : Env) (ble : BLEDevice) (cd : Option (List Byte))
    (d : BAR228Device) (ev : Option Bool) :
    update_device env ble ⟨cd, some d, some ⟨true⟩, ev⟩
        = (⟨cd, some d, some ⟨true⟩, ev⟩, [], .ok d) ∧
    ((update_device env ble ⟨cd, some d, some ⟨true⟩, ev⟩).2.1.countP
        BleAction.isStartNotify) = 0 :=
  ⟨rfl, rfl⟩

/-! ### C9: when does the handler set the event? -/

/-- A list of at least ten bytes is ten explicit bytes plus a tail. -/
lemma exists_ten_cons (l : List Byte) (h : 10 ≤ l.length) :
    ∃ b0 b1 b2 b3 b4 b5 b6 b7 b8 b9 rest,
      l = b0::b1::b2::b3::b4::b5::b6::b7::b8::b9::rest := by
  rcases l with _|⟨b0, _|⟨b1, _|⟨b2, _|⟨b3, _|⟨b4, _|⟨b5, _|⟨b6, _|⟨b7, _|⟨b8, _|⟨b9, rest⟩⟩⟩⟩⟩⟩⟩⟩⟩⟩ <;>
    first
      | exact ⟨_, _, _, _, _, _, _, _, _, _, _, rfl⟩
      | (simp only [List.length_cons, List.length_nil] at h; omega)

/-- C9 counterexample: a notification at telemetry handle 0x0013 with an
empty payload, delivered while the event exists (unset), raises
`struct.error` before reaching `self._event.set()` — the event is left
unset, so the claim's "the event is set after every notification
delivered while it exists" is false. -/
theorem C9_event_not_set_counterexample :
    (notification_handler 0x0013 [] 0
        { bardevice := some (freshDevice ⟨"IDTBA228 X", "AA:BB"⟩),
          event := some false }).1.event = some false ∧
    (notification_handler 0x0013 [] 0
        { bardevice := some (freshDevice ⟨"IDTBA228 X", "AA:BB"⟩),
          event := some false }).2 = some PyErr.structError :=
  ⟨rfl, rfl⟩

/-- C9 amended: for every notification delivered while the event
exists, if the handler runs to completion — that is, the characteristic
handle is below the telemetry threshold 0x0013 (housekeeping traffic,
nothing decoded), or the handle is at least 0x0013 and the payload has
at least 10 bytes — then the event is set afterwards and nothing is
raised. In particular a non-telemetry notification can release the
first-reading handshake primitive. -/
theorem C9_event_set_when_handler_completes
    (handle : ℕ) (data : List Byte) (now : ℕ) (s : DeviceState)
    (d : BAR228Device) (b : Bool)
    (hcase : handle < 0x0013 ∨ (0x0013 ≤ handle ∧ 10 ≤ data.length)) :
    (notification_handler handle data now
        { s with bardevice := some d, event := some b }).1.event = some true ∧
    (notification_handler handle data now
        { s with bardevice := some d, event := some b }).2 = none := by
  rcases hcase with hlt | ⟨hh, hlen⟩
  · constructor <;> simp [notification_handler, Nat.not_le.mpr hlt]
  · obtain ⟨b0, b1, b2, b3, b4, b5, b6, b7, b8, b9, rest, rfl⟩ :=
      exists_ten_cons data hlen
    rw [show ({ s with bardevice := some d, event := some b } : DeviceState)
        = { ({ s with event := some b } : DeviceState) with bardevice := some d }
      from rfl]
    rw [notification_handler_ge handle hh, telemetryDecode_ten]
    exact ⟨rfl, rfl⟩

/-- Witness for the amended C9: a housekeeping notification at handle
0x0012 with an empty payload sets the event. -/
theorem C9_event_set_when_handler_completes_witness :
    (notification_handler 0x0012 [] 3
        { ({} : DeviceState) with
          bardevice := some (freshDevice ⟨"IDTBA228 X", "AA:BB"⟩),
          event := some false }).1.event = some true ∧
    (notification_handler 0x0012 [] 3
        { ({} : DeviceState) with
          bardevice := some (freshDevice ⟨"IDTBA228 X", "AA:BB"⟩),
          event := some false }).2 = none :=
  C9_event_set_when_handler_completes 0x0012 [] 3 {}
    (freshDevice ⟨"IDTBA228 X", "AA:BB"⟩) false (Or.inl (by decide))

/-! ### Evaluating the subscription phase -/

/-- The awaited-operation trace of one run of the subscription phase. -/
def subscriptionTrace : List BleAction :=
  [BleAction.eventCreate,
   .startNotify BAR228_CHARACTERISTIC_UUID_WRITE1,
   .startNotify BAR228_CHARACTERISTIC_UUID_WRITE2,
   .startNotify BAR228_CHARACTERISTIC_UUID_WRITE3,
   .startNotify BAR228_CHARACTERISTIC_UUID_WRITE4,
   .startNotify BAR228_CHARACTERISTIC_UUID_WRITE5]

/-- `getBar228Body` evaluated: the event is created, the five
subscription attempts are recorded in order, and the device is returned
unchanged — whatever outcomes the environment chooses for the
`start_notify` calls, because every failure is swallowed by its own
`except Exception` block. -/
lemma getBar228Body_acts (env : Env) (device : BAR228Device) (s : DeviceState) :
    getBar228Body env device s =
      ({ s with event := some false }, subscriptionTrace, .ok device) := by
  cases h1 : env.notifyResult BAR228_CHARACTERISTIC_UUID_WRITE1 <;>
  cases h2 : env.notifyResult BAR228_CHARACTERISTIC_UUID_WRITE2 <;>
  cases h3 : env.notifyResult BAR228_CHARACTERISTIC_UUID_WRITE3 <;>
  cases h4 : env.notifyResult BAR228_CHARACTERISTIC_UUID_WRITE4 <;>
  cases h5 : env.notifyResult BAR228_CHARACTERISTIC_UUID_WRITE5 <;>
    simp [getBar228Body, subscribeUuids, subscriptionTrace, start_notify,
      h1, h2, h3, h4, h5]

/-- `_get_bar228` (decorator included) evaluated: since the body never
raises, the `disconnect_on_missing_services` wrapper passes the result
through. -/
lemma get_bar228_eval (env : Env) (device : BAR228Device) (s : DeviceState) :
    get_bar228 env device s =
      ({ s with event := some false }, subscriptionTrace, .ok device) := by
  simp [get_bar228, disconnect_on_missing_services, getBar228Body_acts]

/-! ### C3: missing service/characteristic during the subscribe phase -/

/-- An environment in which the first `start_notify` raises
`BleakServiceMissing`. -/
def envServiceMissingOnFirst : Env :=
  { notifyResult := fun u =>
      if u = BAR228_CHARACTERISTIC_UUID_WRITE1 then some .serviceMissing
      else none }

/-- C3 counterexample: with the first `start_notify` failing with
`BleakServiceMissing`, the subscription phase (`_get_bar228`, decorator
included) performs zero `clear_cache` calls and zero `disconnect` calls
and completes normally — the per-subscription `except Exception` blocks
swallow the error before the `disconnect_on_missing_services` wrapper
can see it, so "exactly one clear_cache, one disconnect, and the error
propagates" fails on all three counts. -/
theorem C3_service_missing_counterexample :
    envServiceMissingOnFirst.notifyResult BAR228_CHARACTERISTIC_UUID_WRITE1
      = some PyErr.serviceMissing ∧
    (get_bar228 envServiceMissingOnFirst (freshDevice ⟨"IDTBA228 X", "AA:BB"⟩)
        {}).2.1.count BleAction.clearCache = 0 ∧
    (get_bar228 envServiceMissingOnFirst (freshDevice ⟨"IDTBA228 X", "AA:BB"⟩)
        {}).2.1.count BleAction.disconnect = 0 ∧
    (get_bar228 envServiceMissingOnFirst (freshDevice ⟨"IDTBA228 X", "AA:BB"⟩)
        {}).2.2 = .ok (freshDevice ⟨"IDTBA228 X", "AA:BB"⟩) :=
  ⟨rfl, rfl, rfl, rfl⟩

/-- C3 amended: for every environment — in particular any pattern of
`ServiceMissing`/`CharacteristicMissing` failures on the five subscribe
calls — the subscription phase makes zero `clear_cache` and zero
`disconnect` calls and returns the device normally: each `start_notify`
sits in its own `except Exception` block that logs and continues, so no
Bleak error ever reaches the `disconnect_on_missing_services`
decorator. -/
theorem C3_subscribe_failures_swallowed (env : Env) (device : BAR228Device)
    (s : DeviceState) :
    (get_bar228 env device s).2.1.count BleAction.clearCache = 0 ∧
    (get_bar228 env device s).2.1.count BleAction.disconnect = 0 ∧
    (get_bar228 env device s).2.2 = .ok device := by
  rw [get_bar228_eval]
  exact ⟨rfl, rfl, rfl⟩

/-! ### C4: no wait for the first telemetry frame -/

/-- C4 counterexample: a first-time `update_device` on a fresh state for
a device whose advertised name starts with "IDTBA228" completes and
returns the reading even though no telemetry frame was ever received:
the synchronization event is created but still unset at completion, and
the trace contains no wait on it. -/
theorem C4_no_wait_counterexample :
    (update_device {} ⟨"IDTBA228 X", "AA:BB"⟩ {}).2.2
        = .ok (freshDevice ⟨"IDTBA228 X", "AA:BB"⟩) ∧
    (update_device {} ⟨"IDTBA228 X", "AA:BB"⟩ {}).1.event = some false ∧
    (update_device {} ⟨"IDTBA228 X", "AA:BB"⟩ {}).2.1.count
        BleAction.eventWait = 0 :=
  ⟨rfl, rfl, rfl⟩

/-- C4 amended: a first-time update on a new address whose advertised
name starts with "IDTBA228" performs the connection and subscription
phase and creates the synchronization event, but does not wait for a
decoded telemetry frame: `update_device` completes immediately, with
the event still unset and no wait recorded in the trace. -/
theorem C4_first_update_does_not_wait (env : Env)
    (hest : env.establishResult = none) (ble : BLEDevice)
    (hname : pyStartswith ble.name "IDTBA228" = true)
    (cd : Option (List Byte)) (ev : Option Bool) :
    update_device env ble ⟨cd, none, none, ev⟩
      = (⟨none, some (freshDevice ble), some ⟨true⟩, some false⟩,
         .establishConnection ble.address :: subscriptionTrace,
         .ok (freshDevice ble)) ∧
    (BleAction.establishConnection ble.address :: subscriptionTrace).count
        BleAction.eventWait = 0 := by
  constructor
  · simp [update_device, hest, hname, get_bar228_eval]
  · rfl

/-- Witness for the amended C4 with a fresh session and name
"IDTBA228 X". -/
theorem C4_first_update_does_not_wait_witness :
    update_device {} ⟨"IDTBA228 X", "AA:BB"⟩ ⟨none, none, none, none⟩
      = (⟨none, some (freshDevice ⟨"IDTBA228 X", "AA:BB"⟩), some ⟨true⟩, some false⟩,
         .establishConnection "AA:BB" :: subscriptionTrace,
         .ok (freshDevice ⟨"IDTBA228 X", "AA:BB"⟩)) ∧
    (BleAction.establishConnection "AA:BB" :: subscriptionTrace).count
        BleAction.eventWait = 0 :=
  C4_first_update_does_not_wait {} rfl ⟨"IDTBA228 X", "AA:BB"⟩ (by decide) none none

/-! ### C8: non-matching device name skips the subscription phase -/

/-- C8: a first-time update for a device whose advertised name does not
start with "IDTBA228" completes with no subscription call and without
creating (or waiting on) the synchronization event, while the
connection is established and retained. -/
theorem C8_nonmatching_name_skips_subscription (env : Env)
    (hest : env.establishResult = none) (ble : BLEDevice)
    (hname : pyStartswith ble.name "IDTBA228" = false)
    (cd : Option (List Byte)) (ev : Option Bool) :
    update_device env ble ⟨cd, none, none, ev⟩
      = (⟨none, some (freshDevice ble), some ⟨true⟩, ev⟩,
         [.establishConnection ble.address], .ok (freshDevice ble)) ∧
    ((update_device env ble ⟨cd, none, none, ev⟩).2.1.countP
        BleAction.isStartNotify) = 0 := by
  have h : update_device env ble ⟨cd, none, none, ev⟩
      = (⟨none, some (freshDevice ble), some ⟨true⟩, ev⟩,
         [.establishConnection ble.address], .ok (freshDevice ble)) := by
    simp [update_device, hest, hname]
  refine ⟨h, ?_⟩
  rw [h]
  rfl

/-- Witness for C8 with a fresh session and name "OTHER". -/
theorem C8_nonmatching_name_skips_subscription_witness :
    update_device {} ⟨"OTHER", "AA:BB"⟩ ⟨none, none, none, none⟩
      = (⟨none, some (freshDevice ⟨"OTHER", "AA:BB"⟩), some ⟨true⟩, none⟩,
         [.establishConnection "AA:BB"], .ok (freshDevice ⟨"OTHER", "AA:BB"⟩)) ∧
    ((update_device {} ⟨"OTHER", "AA:BB"⟩ ⟨none, none, none, none⟩).2.1.countP
        BleAction.isStartNotify) = 0 :=
  C8_nonmatching_name_skips_subscription {} rfl ⟨"OTHER", "AA:BB"⟩ (by decide)
    none none

/-! ### C10: the device record is created once and then reused -/

/-- C10: any `update_device` call on a state whose session record
already exists keeps that very record: `_bardevice` holds the same
value — name, address and the sensors mapping included — afterwards, on
every path (connected no-op, reconnect, fresh client, and every failure
path). Only a call that finds `_bardevice` empty initialises it. -/
theorem C10_existing_device_record_reused (env : Env) (ble : BLEDevice)
    (s : DeviceState) (d : BAR228Device) (h : s.bardevice = some d) :
    ((update_device env ble s).1).bardevice = some d := by
  obtain ⟨cd, bd, bc, ev⟩ := s
  simp only [DeviceState.bardevice] at h
  subst h
  rcases bc with _ | ⟨(_ | _)⟩
  · cases hest : env.establishResult with
    | some e => simp [update_device, hest]
    | none =>
        cases hn : pyStartswith ble.name "IDTBA228" <;>
          simp [update_device, hest, hn, get_bar228_eval]
  · cases hcon : env.connectResult with
    | some e => simp [update_device, hcon]
    | none => simp [update_device, hcon, get_bar228_eval]
  · simp [update_device]

/-- Witness for C10: a second update on a connected session with an
existing record. -/
theorem C10_existing_device_record_reused_witness :
    ((update_device {} ⟨"IDTBA228 X", "AA:BB"⟩
        ⟨none, some (freshDevice ⟨"IDTBA228 X", "AA:BB"⟩), some ⟨true⟩,
         some false⟩).1).bardevice
      = some (freshDevice ⟨"IDTBA228 X", "AA:BB"⟩) :=
  C10_existing_device_record_reused {} ⟨"IDTBA228 X", "AA:BB"⟩
    ⟨none, some (freshDevice ⟨"IDTBA228 X", "AA:BB"⟩), some ⟨true⟩, some false⟩
    (freshDevice ⟨"IDTBA228 X", "AA:BB"⟩) rfl

/-! ### C7: update always returns a complete reading object -/

/-- The reading that `update_device` works with on entry: the stored
record, or the fresh record it creates when none exists yet. -/
def entryDevice (ble : BLEDevice) (s : DeviceState) : BAR228Device :=
  match s.bardevice with
  | some d => d
  | none => freshDevice ble

/-- All four fixed sensor keys are present in the reading (each stored
value may itself be Python `None`, which the embedding keeps distinct
from the number `0`). -/
def hasSensorKeys (d : BAR228Device) : Prop :=
  (pyDictGet d.sensors "temperature").isSome = true ∧
  (pyDictGet d.sensors "humidity").isSome = true ∧
  (pyDictGet d.sensors "pressure").isSome = true ∧
  (pyDictGet d.sensors "last").isSome = true

lemma hasSensorKeys_fresh (ble : BLEDevice) : hasSensorKeys (freshDevice ble) :=
  ⟨rfl, rfl, rfl, rfl⟩

/-- Whenever `update_device` returns normally, what it returns is
exactly the record held (or just created) in `_bardevice`, and that
record is still stored at exit. -/
lemma update_device_ok (env : Env) (ble : BLEDevice) (s : DeviceState)
    (d' : BAR228Device) (hok : (update_device env ble s).2.2 = .ok d') :
    d' = entryDevice ble s ∧ (update_device env ble s).1.bardevice = some d' := by
  obtain ⟨cd, bd, bc, ev⟩ := s
  rcases bd with _ | d <;> rcases bc with _ | ⟨(_ | _)⟩ <;>
    cases hest : env.establishResult <;>
    cases hcon : env.connectResult <;>
    cases hn : pyStartswith ble.name "IDTBA228" <;>
    simp_all [update_device, get_bar228_eval, entryDevice]

/-- C7: for every update call, whenever `update_device` returns a
reading, the session's stored record is exactly that reading (never
null once the session exists) and it contains all four fixed keys
(temperature, humidity, pressure, last) — provided the stored record,
if any, already had them, as the first update's initialisation
guarantees. Each key's value may still be Python `None`, kept distinct
from zero by the `Option` representation. -/
theorem C7_update_returns_complete_reading (env : Env) (ble : BLEDevice)
    (s : DeviceState)
    (hpre : s.bardevice = none ∨ ∃ d, s.bardevice = some d ∧ hasSensorKeys d)
    (d' : BAR228Device) (hok : (update_device env ble s).2.2 = .ok d') :
    (update_device env ble s).1.bardevice = some d' ∧ hasSensorKeys d' := by
  obtain ⟨heq, hstore⟩ := update_device_ok env ble s d' hok
  refine ⟨hstore, ?_⟩
  subst heq
  rcases hpre with hb | ⟨d, hb, hkeys⟩
  · simp [entryDevice, hb, hasSensorKeys_fresh]
  · simpa [entryDevice, hb] using hkeys

/-- Witness for C7: the first update on a fresh session. -/
theorem C7_update_returns_complete_reading_witness :
    (update_device {} ⟨"IDTBA228 X", "AA:BB"⟩ {}).1.bardevice
        = some (freshDevice ⟨"IDTBA228 X", "AA:BB"⟩) ∧
    hasSensorKeys (freshDevice ⟨"IDTBA228 X", "AA:BB"⟩) :=
  C7_update_returns_complete_reading {} ⟨"IDTBA228 X", "AA:BB"⟩ {}
    (Or.inl rfl) (freshDevice ⟨"IDTBA228 X", "AA:BB"⟩) rfl
